import Mathlib

/-! Shallow embedding of `src/app.py`: a Flask backend exposing a static index
page, a `/save_lead` route that inserts one row into a PostgreSQL `leads`
table through a connection pool, and a `/chat` route that proxies the request
to the Gemini generate-content API and re-shapes the answer.

The two handlers are embedded as total functions.  Effects of the outside
world (the database insert, the upstream API call) are supplied as explicit
outcome values, so each handler maps a parsed request plus an outcome of its
one external call to an HTTP result that also records the observable side
effects (rows written, connection acquired/released, rollback performed,
number of upstream calls). -/

namespace SicsaWeb

/-- Minimal JSON value type, for request and response bodies built by
`jsonify` in the source. -/
inductive Json where
  | null : Json
  | bool : Bool → Json
  | num : Int → Json
  | str : String → Json
  | arr : List Json → Json
  | obj : List (String × Json) → Json

/-- Field lookup on a JSON object; `none` on any other shape. -/
def Json.lookup : Json → String → Option Json
  | .obj fields, k => List.lookup k fields
  | _, _ => none

/-- Python truthiness of an optional string field: `None` (the key was absent)
and the empty string are both falsy, as tested by `if not nombre or not
telefono` and `if not GEMINI_API_KEY` in the source. -/
def falsyStr : Option String → Bool
  | none => true
  | some s => s == ""

/-- Substring containment, embedding Python's `'RATE_LIMIT_EXCEEDED' in
str(e)` test (app.py line 138). -/
def strContains (s pat : String) : Bool :=
  s.data.tails.any fun t => List.isPrefixOf pat.data t

/-- Startup guard of app.py lines 19-24: if `GEMINI_API_KEY` is unset (or the
empty string, which is equally falsy in Python), a `ValueError` is raised and
the process never starts serving. -/
def startupCheck (apiKey : Option String) : Except String Unit :=
  if falsyStr apiKey then
    .error "GEMINI_API_KEY no se encontró en las variables de entorno."
  else
    .ok ()

/-! ## The `/save_lead` handler (app.py lines 56-102) -/

/-- Parsed JSON body of a `/save_lead` request; each field is `none` when the
key is absent from the body, mirroring `data.get(...)`. -/
structure LeadRequest where
  nombre : Option String
  telefono : Option String
  servicio : Option String
  mensaje : Option String

/-- One row of the `leads` table, the four columns of the INSERT at app.py
lines 81-84. -/
structure LeadRow where
  nombre : String
  telefono : String
  servicio : String
  mensaje : String
deriving DecidableEq

/-- Outcome of the database interaction inside the `try` block: either the
`getconn`/`execute`/`commit` sequence succeeds, or `getconn` itself raises
(so `conn` stays `None`), or the insert/commit raises after a connection was
acquired.  The string is `str(e)` of the raised exception. -/
inductive DbOutcome where
  | ok : DbOutcome
  | getconnRaises : String → DbOutcome
  | raises : String → DbOutcome

/-- Observable result of one `/save_lead` call: HTTP status, JSON body, the
rows this request persisted, and whether a pool connection was acquired,
returned to the pool, and rolled back. -/
structure SaveLeadResult where
  status : Nat
  body : Json
  rowsWritten : List LeadRow
  connAcquired : Bool
  connReleased : Bool
  rolledBack : Bool

/-- Embedding of the `save_lead` handler (app.py lines 56-102).
`dbConfigured` is whether `db_pool` is non-`None` at startup.  The 503 guard
precedes all validation; validation of `nombre`/`telefono` uses Python
truthiness; `servicio` and `mensaje` take their defaults only when absent;
on a database exception after acquisition the transaction is rolled back and
the `finally` block returns the connection to the pool. -/
def save_lead (dbConfigured : Bool) (data : LeadRequest) (db : DbOutcome) :
    SaveLeadResult :=
  if !dbConfigured then
    { status := 503
      body := .obj [("error", .str "El servicio de base de datos no está disponible.")]
      rowsWritten := []
      connAcquired := false, connReleased := false, rolledBack := false }
  else
    let servicio := data.servicio.getD "No especificado"
    let mensaje := data.mensaje.getD "Contacto desde formulario web"
    if falsyStr data.nombre || falsyStr data.telefono then
      { status := 400
        body := .obj [("error", .str "Faltan campos obligatorios: nombre y teléfono.")]
        rowsWritten := []
        connAcquired := false, connReleased := false, rolledBack := false }
    else
      match db with
      | .ok =>
        { status := 200
          body := .obj [("success", .bool true), ("message", .str "Lead guardado con éxito.")]
          rowsWritten := [⟨data.nombre.getD "", data.telefono.getD "", servicio, mensaje⟩]
          connAcquired := true, connReleased := true, rolledBack := false }
      | .getconnRaises detail =>
        { status := 500
          body := .obj [("error", .str "Error interno del servidor al guardar el lead."),
                        ("details", .str detail)]
          rowsWritten := []
          connAcquired := false, connReleased := false, rolledBack := false }
      | .raises detail =>
        { status := 500
          body := .obj [("error", .str "Error interno del servidor al guardar el lead."),
                        ("details", .str detail)]
          rowsWritten := []
          connAcquired := true, connReleased := true, rolledBack := true }

/-! ## The `/chat` handler (app.py lines 106-144) -/

/-- Finish reason of a candidate as an enum; `.name` below embeds the Python
`finish_reason.name` access at app.py line 129. -/
inductive FinishReason where
  | STOP : FinishReason
  | MAX_TOKENS : FinishReason
  | SAFETY : FinishReason
  | RECITATION : FinishReason
  | OTHER : FinishReason

/-- Name of a finish-reason enum member, as Python's `.name`. -/
def FinishReason.name : FinishReason → String
  | .STOP => "STOP"
  | .MAX_TOKENS => "MAX_TOKENS"
  | .SAFETY => "SAFETY"
  | .RECITATION => "RECITATION"
  | .OTHER => "OTHER"

/-- One candidate of an upstream generate-content response; `content` is the
dictionary form of the candidate content (`content.to_dict()`). -/
structure Candidate where
  content : Json
  finish_reason : FinishReason

/-- A successful upstream generate-content response: its list of
candidates. -/
structure GenerateContentResponse where
  candidates : List Candidate

/-- Outcome of the one `client.models.generate_content` call: success with a
response, an `APIError` carrying `str(e)`, or any other exception carrying
`str(e)`. -/
inductive UpstreamOutcome where
  | success : GenerateContentResponse → UpstreamOutcome
  | apiError : String → UpstreamOutcome
  | otherError : String → UpstreamOutcome

/-- Parsed JSON body of a `/chat` request: `contents` is `none` when the key
is absent (`data.get('contents', [])` then yields the empty list), and the
optional `systemInstruction`. -/
structure ChatRequest where
  contents : Option (List Json)
  systemInstruction : Option Json

/-- Observable result of one `/chat` call: HTTP status, JSON body, and how
many upstream generate-content calls were made. -/
structure ChatResult where
  status : Nat
  body : Json
  upstreamCalls : Nat

/-- The `str(e)` of the `IndexError` raised by `response.candidates[0]` when
the candidate list is empty (CPython's message for a list index access out of
range). -/
def indexErrorDetail : String := "list index out of range"

/-- Embedding of the `chat` handler (app.py lines 106-144).  Empty or absent
`contents` is rejected with 400 before any upstream call; otherwise exactly
one upstream call is made.  On success the first candidate is re-shaped into
the `{candidates: [{content, finish_reason}]}` envelope; an empty candidate
list makes `response.candidates[0]` raise `IndexError`, which falls into the
generic `except Exception` branch (500).  An `APIError` maps to 429 when its
string mentions `RATE_LIMIT_EXCEEDED` and to 500 otherwise, with the detail
attached; any other exception maps to 500. -/
def chat (req : ChatRequest) (upstream : UpstreamOutcome) : ChatResult :=
  let contents := req.contents.getD []
  if contents.isEmpty then
    { status := 400
      body := .obj [("error", .str "Faltan contenidos del chat.")]
      upstreamCalls := 0 }
  else
    match upstream with
    | .success resp =>
      match resp.candidates with
      | c :: _ =>
        { status := 200
          body := .obj [("candidates",
            .arr [.obj [("content", c.content),
                        ("finish_reason", .str c.finish_reason.name)]])]
          upstreamCalls := 1 }
      | [] =>
        { status := 500
          body := .obj [("error", .str "Error interno del servidor."),
                        ("details", .str indexErrorDetail)]
          upstreamCalls := 1 }
    | .apiError detail =>
      { status := if strContains detail "RATE_LIMIT_EXCEEDED" then 429 else 500
        body := .obj [("error", .str "Error de la API de Gemini."),
                      ("details", .str detail)]
        upstreamCalls := 1 }
    | .otherError detail =>
      { status := 500
        body := .obj [("error", .str "Error interno del servidor."),
                      ("details", .str detail)]
        upstreamCalls := 1 }

/-- A response body is an error envelope when it is a JSON object whose
`error` key holds a string. -/
def isErrorEnvelope (body : Json) : Bool :=
  match body.lookup "error" with
  | some (.str _) => true
  | _ => false

/-- A handled HTTP response: either a 200, or one of the mapped error codes
(400, 429, 500, 503) together with a JSON error envelope. -/
def handledResponse (status : Nat) (body : Json) : Bool :=
  if status == 200 then
    true
  else
    (status == 400 || status == 429 || status == 500 || status == 503) &&
      isErrorEnvelope body

/-- C1: for every /chat request whose `contents` is non-empty, exactly one
upstream generate-content call is made, and on upstream success the handler
returns HTTP 200 with a body `{candidates: [{content, finish_reason}]}` in
which `content` is the upstream response's first candidate's content verbatim
and `finish_reason` is that candidate's finish-reason name. -/
theorem chat_success_first_candidate (req : ChatRequest)
    (resp : GenerateContentResponse) (c : Candidate) (cs : List Candidate)
    (hne : (req.contents.getD []).isEmpty = false)
    (hcand : resp.candidates = c :: cs) :
    (∀ u : UpstreamOutcome, (chat req u).upstreamCalls = 1) ∧
    (chat req (.success resp)).status = 200 ∧
    (chat req (.success resp)).body =
      .obj [("candidates",
        .arr [.obj [("content", c.content),
                    ("finish_reason", .str c.finish_reason.name)]])] := by
  refine ⟨fun u => ?_, ?_, ?_⟩
  · cases u with
    | success r =>
      cases r with
      | mk cands => cases cands <;> simp [chat, hne]
    | apiError d => simp [chat, hne]
    | otherError d => simp [chat, hne]
  · simp [chat, hne, hcand]
  · simp [chat, hne, hcand]

/-- Witness for C1 at a concrete request and upstream response. -/
theorem chat_success_first_candidate_spot :
    ((ChatRequest.mk (some [Json.str "hola"]) none).contents.getD []).isEmpty = false ∧
    (GenerateContentResponse.mk [Candidate.mk (Json.str "respuesta") FinishReason.STOP]).candidates =
      Candidate.mk (Json.str "respuesta") FinishReason.STOP :: [] ∧
    (chat (ChatRequest.mk (some [Json.str "hola"]) none)
      (.success (GenerateContentResponse.mk
        [Candidate.mk (Json.str "respuesta") FinishReason.STOP]))).status = 200 :=
  ⟨rfl, rfl,
    (chat_success_first_candidate (ChatRequest.mk (some [Json.str "hola"]) none)
      (GenerateContentResponse.mk
        [Candidate.mk (Json.str "respuesta") FinishReason.STOP])
      (Candidate.mk (Json.str "respuesta") FinishReason.STOP) [] rfl rfl).2.1⟩

/-- C2: for every /chat request on which the upstream call raises an
`APIError`, the handler returns 429 when the error string carries the
rate-limit signal `RATE_LIMIT_EXCEEDED` and 500 otherwise, and in both cases
the body carries the Gemini-API-error label (the literal string `"Error de la
API de Gemini."`) together with the original error detail string. -/
theorem chat_api_error_mapping (req : ChatRequest) (detail : String)
    (hne : (req.contents.getD []).isEmpty = false) :
    (chat req (.apiError detail)).status =
      (if strContains detail "RATE_LIMIT_EXCEEDED" then 429 else 500) ∧
    (chat req (.apiError detail)).body =
      .obj [("error", .str "Error de la API de Gemini."),
            ("details", .str detail)] := by
  constructor <;> simp [chat, hne]

/-- Witness for C2 at a concrete request and a rate-limited error string. -/
theorem chat_api_error_mapping_spot :
    ((ChatRequest.mk (some [Json.str "hola"]) none).contents.getD []).isEmpty = false ∧
    (chat (ChatRequest.mk (some [Json.str "hola"]) none)
      (.apiError "429 RATE_LIMIT_EXCEEDED: quota exhausted")).status = 429 := by
  refine ⟨rfl, ?_⟩
  rw [(chat_api_error_mapping (ChatRequest.mk (some [Json.str "hola"]) none)
    "429 RATE_LIMIT_EXCEEDED: quota exhausted" rfl).1]
  decide

/-- C3: for every /chat request whose `contents` is empty or absent, the
handler returns 400 with an `error` key in the body and makes no upstream
call, whatever the upstream would have answered. -/
theorem chat_empty_contents_rejected (req : ChatRequest) (u : UpstreamOutcome)
    (he : req.contents = none ∨ req.contents = some []) :
    (chat req u).status = 400 ∧ (chat req u).upstreamCalls = 0 ∧
    (chat req u).body.lookup "error" =
      some (.str "Faltan contenidos del chat.") := by
  rcases he with h | h <;> simp [chat, h, Json.lookup, List.lookup]

/-- Witness for C3 at a request with `contents` absent. -/
theorem chat_empty_contents_rejected_spot :
    ((ChatRequest.mk none none).contents = none ∨
      (ChatRequest.mk none none).contents = some []) ∧
    (chat (ChatRequest.mk none none)
      (.apiError "unused")).status = 400 :=
  ⟨Or.inl rfl,
    (chat_empty_contents_rejected (ChatRequest.mk none none)
      (.apiError "unused") (Or.inl rfl)).1⟩

/-- C10: if the upstream call succeeds but the response has no candidates,
the handler does not return 200: the out-of-range access
`response.candidates[0]` raises `IndexError`, caught by the generic exception
branch, and the response is 500 with the generic internal-error envelope
`{error, details}`. -/
theorem chat_no_candidates_500 (req : ChatRequest)
    (hne : (req.contents.getD []).isEmpty = false) :
    (chat req (.success (GenerateContentResponse.mk []))).status = 500 ∧
    (chat req (.success (GenerateContentResponse.mk []))).status ≠ 200 ∧
    (chat req (.success (GenerateContentResponse.mk []))).body =
      .obj [("error", .str "Error interno del servidor."),
            ("details", .str indexErrorDetail)] := by
  refine ⟨?_, ?_, ?_⟩ <;> simp [chat, hne]

/-- Witness for C10 at a concrete request. -/
theorem chat_no_candidates_500_spot :
    ((ChatRequest.mk (some [Json.str "hola"]) none).contents.getD []).isEmpty = false ∧
    (chat (ChatRequest.mk (some [Json.str "hola"]) none)
      (.success (GenerateContentResponse.mk []))).status = 500 :=
  ⟨rfl, (chat_no_candidates_500 (ChatRequest.mk (some [Json.str "hola"]) none) rfl).1⟩

/-- C5: for every /save_lead submission with non-empty name and phone, when
the database is configured and the insert succeeds, exactly one row is
written to `leads` containing the submitted values, with `servicio`
defaulting to `"No especificado"` and `mensaje` to `"Contacto desde
formulario web"` when absent, and the response is 200 with `success: true`. -/
theorem save_lead_success_row (d : LeadRequest) (n t : String)
    (hn : d.nombre = some n) (hne : n ≠ "")
    (ht : d.telefono = some t) (hte : t ≠ "") :
    (save_lead true d .ok).status = 200 ∧
    (save_lead true d .ok).body =
      .obj [("success", .bool true), ("message", .str "Lead guardado con éxito.")] ∧
    (save_lead true d .ok).rowsWritten =
      [⟨n, t, d.servicio.getD "No especificado",
        d.mensaje.getD "Contacto desde formulario web"⟩] := by
  refine ⟨?_, ?_, ?_⟩ <;> simp [save_lead, hn, ht, falsyStr, hne, hte]

/-- Witness for C5 at the spec's own example submission. -/
theorem save_lead_success_row_spot :
    (LeadRequest.mk (some "Ana") (some "555-1234") none none).nombre = some "Ana" ∧
    "Ana" ≠ "" ∧
    (LeadRequest.mk (some "Ana") (some "555-1234") none none).telefono = some "555-1234" ∧
    "555-1234" ≠ "" ∧
    (save_lead true (LeadRequest.mk (some "Ana") (some "555-1234") none none) .ok).rowsWritten =
      [⟨"Ana", "555-1234", "No especificado", "Contacto desde formulario web"⟩] :=
  ⟨rfl, by decide, rfl, by decide,
    (save_lead_success_row (LeadRequest.mk (some "Ana") (some "555-1234") none none)
      "Ana" "555-1234" rfl (by decide) rfl (by decide)).2.2⟩

/-- Counterexample to C6 as stated: a submission with a missing name sent
while no database pool is configured is answered 503 by the guard at app.py
lines 59-61, not 400 — the 503 check precedes validation. -/
theorem save_lead_invalid_counterexample :
    (save_lead false (LeadRequest.mk none (some "555-1234") none none) .ok).status = 503 ∧
    (save_lead false (LeadRequest.mk none (some "555-1234") none none) .ok).status ≠ 400 :=
  ⟨rfl, by decide⟩

/-- C6 (amended): for every /save_lead submission in which name or phone is
missing or empty, no row is written to `leads`; and when the database pool is
configured the response is 400 with the missing-fields error (without a pool
the 503 guard answers first). -/
theorem save_lead_invalid_rejected (cfg : Bool) (d : LeadRequest) (db : DbOutcome)
    (hv : falsyStr d.nombre = true ∨ falsyStr d.telefono = true) :
    (save_lead cfg d db).rowsWritten = [] ∧
    (cfg = true →
      (save_lead cfg d db).status = 400 ∧
      (save_lead cfg d db).body.lookup "error" =
        some (.str "Faltan campos obligatorios: nombre y teléfono.")) := by
  have hb : (falsyStr d.nombre || falsyStr d.telefono) = true := by
    rcases hv with h | h <;> simp [h]
  cases cfg
  · refine ⟨?_, ?_⟩
    · simp [save_lead]
    · intro h; exact absurd h (by decide)
  · refine ⟨?_, fun _ => ⟨?_, ?_⟩⟩ <;>
      simp [save_lead, hb, Json.lookup, List.lookup]

/-- Witness for C6 (amended) at a concrete submission missing the name. -/
theorem save_lead_invalid_rejected_spot :
    (falsyStr (LeadRequest.mk none (some "555-1234") none none).nombre = true ∨
      falsyStr (LeadRequest.mk none (some "555-1234") none none).telefono = true) ∧
    (save_lead true (LeadRequest.mk none (some "555-1234") none none) .ok).status = 400 :=
  ⟨Or.inl rfl,
    ((save_lead_invalid_rejected true
      (LeadRequest.mk none (some "555-1234") none none) .ok (Or.inl rfl)).2 rfl).1⟩

/-- C7: for every /save_lead request on which the insert or commit raises,
the transaction is rolled back, no row is persisted by the request, and the
response is 500 with the internal-error label and the underlying error detail
string. -/
theorem save_lead_db_error_rollback (d : LeadRequest) (detail : String)
    (hn : falsyStr d.nombre = false) (ht : falsyStr d.telefono = false) :
    (save_lead true d (.raises detail)).status = 500 ∧
    (save_lead true d (.raises detail)).rolledBack = true ∧
    (save_lead true d (.raises detail)).rowsWritten = [] ∧
    (save_lead true d (.raises detail)).body =
      .obj [("error", .str "Error interno del servidor al guardar el lead."),
            ("details", .str detail)] := by
  refine ⟨?_, ?_, ?_, ?_⟩ <;> simp [save_lead, hn, ht]

/-- Witness for C7 at a concrete valid submission with a failing commit. -/
theorem save_lead_db_error_rollback_spot :
    falsyStr (LeadRequest.mk (some "Ana") (some "555-1234") none none).nombre = false ∧
    falsyStr (LeadRequest.mk (some "Ana") (some "555-1234") none none).telefono = false ∧
    (save_lead true (LeadRequest.mk (some "Ana") (some "555-1234") none none)
      (.raises "connection reset")).rolledBack = true :=
  ⟨rfl, rfl,
    (save_lead_db_error_rollback (LeadRequest.mk (some "Ana") (some "555-1234") none none)
      "connection reset" rfl rfl).2.1⟩

/-- C8: when no database pool is configured at startup, every /save_lead call
returns 503 with an error body, and no row is written nor any connection
acquired, whatever the submission and whatever the database would have
done. -/
theorem save_lead_no_pool_503 (d : LeadRequest) (db : DbOutcome) :
    (save_lead false d db).status = 503 ∧
    (save_lead false d db).rowsWritten = [] ∧
    (save_lead false d db).connAcquired = false ∧
    (save_lead false d db).body.lookup "error" =
      some (.str "El servicio de base de datos no está disponible.") := by
  refine ⟨?_, ?_, ?_, ?_⟩ <;> simp [save_lead, Json.lookup, List.lookup]

/-- C9: on every exit path of /save_lead in which a connection was acquired
from the pool, that connection is returned to the pool before the handler
finishes. -/
theorem save_lead_conn_released (cfg : Bool) (d : LeadRequest) (db : DbOutcome)
    (h : (save_lead cfg d db).connAcquired = true) :
    (save_lead cfg d db).connReleased = true := by
  cases cfg <;> cases db <;>
    cases hb : (falsyStr d.nombre || falsyStr d.telefono) <;>
    simp_all [save_lead]

/-- Witness for C9 at a concrete call that does acquire a connection. -/
theorem save_lead_conn_released_spot :
    (save_lead true (LeadRequest.mk (some "Ana") (some "555-1234") none none)
      .ok).connAcquired = true ∧
    (save_lead true (LeadRequest.mk (some "Ana") (some "555-1234") none none)
      .ok).connReleased = true :=
  ⟨rfl,
    save_lead_conn_released true
      (LeadRequest.mk (some "Ana") (some "555-1234") none none) .ok rfl⟩

/-- C4: every outcome of /chat and of /save_lead modelled here yields a
handled HTTP response — a 200, or one of the mapped codes 400/429/500/503
with a JSON `{error, details?}` envelope — so no modelled error escapes the
handler boundary; and startup succeeds exactly when the API key is present
and non-empty, a missing key being fatal before the server starts. -/
theorem handlers_never_crash :
    (∀ (req : ChatRequest) (u : UpstreamOutcome),
      handledResponse (chat req u).status (chat req u).body = true) ∧
    (∀ (cfg : Bool) (d : LeadRequest) (db : DbOutcome),
      handledResponse (save_lead cfg d db).status (save_lead cfg d db).body = true) ∧
    (∀ k : Option String, startupCheck k = .ok () ↔ falsyStr k = false) := by
  refine ⟨fun req u => ?_, fun cfg d db => ?_, fun k => ?_⟩
  · cases he : (req.contents.getD []).isEmpty
    · cases u with
      | success r =>
        cases r with
        | mk cands =>
          cases cands <;>
            simp [chat, he, handledResponse, isErrorEnvelope, Json.lookup, List.lookup]
      | apiError detail =>
        cases hr : strContains detail "RATE_LIMIT_EXCEEDED" <;>
          simp [chat, he, hr, handledResponse, isErrorEnvelope, Json.lookup, List.lookup]
      | otherError detail =>
        simp [chat, he, handledResponse, isErrorEnvelope, Json.lookup, List.lookup]
    · simp [chat, he, handledResponse, isErrorEnvelope, Json.lookup, List.lookup]
  · cases cfg
    · simp [save_lead, handledResponse, isErrorEnvelope, Json.lookup, List.lookup]
    · cases hb : (falsyStr d.nombre || falsyStr d.telefono) <;> cases db <;>
        simp [save_lead, hb, handledResponse, isErrorEnvelope, Json.lookup, List.lookup]
  · cases hk : falsyStr k <;> simp [startupCheck, hk]

end SicsaWeb
